import Mathlib

/-!
Shallow embedding of `cargo-minify`'s `src/lib.rs` (option resolution, the
`execute` driver, and the exit-status mapping of `run`), together with
spec-modelled interfaces for the collaborator modules that the library file
references but whose sources are not part of this development (`error`,
`vcs`, the committer of `cauterize`, and the external `glob_match` crate).
-/

namespace CargoMinify

/-- Modelled from the spec: the error taxonomy of the absent `error` module.
The four variants are exactly those `run` discriminates on: I/O errors,
encoding (UTF-8) errors, argument/configuration errors, and command-line
parse errors.  Payloads are modelled as strings. -/
inductive Error where
  | Io : String → Error
  | Utf8 : String → Error
  | Args : String → Error
  | CommandLine : String → Error
deriving DecidableEq, Repr

/-- The enumeration of recognized unused-declaration kinds
(`UnusedDiagnosticKind` in the source). -/
inductive UnusedDiagnosticKind where
  | Function | Const | Static | Struct | Enum | Union
  | TypeAlias | AssociatedFunction | MacroDefinition
deriving DecidableEq, Repr

/-- Color mode of the diff renderer (`diff_format::ColorMode`). -/
inductive ColorMode where
  | auto | always | never
deriving DecidableEq, Repr

/-- The `MinifyOptions` struct of `src/lib.rs` (parsed command-line flags). -/
structure MinifyOptions where
  quiet : Bool
  package : List String
  workspace : Bool
  exclude : List String
  file : List String
  ignore : List String
  kinds : List UnusedDiagnosticKind
  apply : Bool
  help : Bool
  color : ColorMode
  manifest_path : Option String
  allow_dirty : Bool
  allow_staged : Bool
  allow_no_vcs : Bool

/-- `CrateResolutionOptions` of `src/lib.rs`: which packages are minified.
Borrowed slices are modelled as owned lists. -/
inductive CrateResolutionOptions where
  | Root : CrateResolutionOptions
  | Workspace : List String → CrateResolutionOptions
  | Package : List String → CrateResolutionOptions
deriving DecidableEq, Repr

/-- `CrateResolutionOptions::from_options`: the three-way match on
`(workspace, !package.is_empty(), !exclude.is_empty())` from `src/lib.rs`. -/
def CrateResolutionOptions.from_options (opts : MinifyOptions) :
    Except Error CrateResolutionOptions :=
  match opts.workspace, !opts.package.isEmpty, !opts.exclude.isEmpty with
  | true, false, true | true, false, false =>
      .ok (.Workspace opts.exclude)
  | false, true, false =>
      .ok (.Package opts.package)
  | false, false, false =>
      .ok .Root
  | true, true, false | false, true, true | true, true, true =>
      .error (.Args "either specify --workspace and optionally --exclude specific targets, or specify specific targets with --package")
  | false, false, true =>
      .error (.Args "--exclude can only be used in conjunction with --workspace")

/-- Modelled from the spec: glob matching of the external `glob_match`
crate, restricted to the features the spec names — `*` (any run of
characters other than the path separator), `?` (any single character other
than the path separator) and `**` (any run of characters) — case-sensitive,
over the file path as a character list. -/
def globMatchAux : List Char → List Char → Bool
  | [], s => s.isEmpty
  | '*' :: '*' :: ps, s =>
      globMatchAux ps s ||
        match s with
        | [] => false
        | _ :: cs => globMatchAux ('*' :: '*' :: ps) cs
  | '*' :: ps, s =>
      globMatchAux ps s ||
        match s with
        | [] => false
        | c :: cs => !(c = '/') && globMatchAux ('*' :: ps) cs
  | '?' :: ps, s =>
      match s with
      | [] => false
      | c :: cs => !(c = '/') && globMatchAux ps cs
  | p :: ps, s =>
      match s with
      | [] => false
      | c :: cs => p = c && globMatchAux ps cs
termination_by p s => p.length + s.length

/-- Modelled from the spec: `glob_match::glob_match(pattern, name)` on
strings. -/
def glob_match (pattern name : String) : Bool :=
  globMatchAux pattern.data name.data

/-- `FileResolutionOptions` of `src/lib.rs`: either an allow-list (`Only`)
or a deny-list (`AllBut`) of glob patterns. -/
inductive FileResolutionOptions where
  | Only : List String → FileResolutionOptions
  | AllBut : List String → FileResolutionOptions
deriving DecidableEq, Repr

/-- `FileResolutionOptions::from_options`: the match on
`(!file.is_empty(), !ignore.is_empty())` from `src/lib.rs`. -/
def FileResolutionOptions.from_options (opts : MinifyOptions) :
    Except Error FileResolutionOptions :=
  match !opts.file.isEmpty, !opts.ignore.isEmpty with
  | false, false | false, true => .ok (.AllBut opts.ignore)
  | true, false => .ok (.Only opts.file)
  | true, true => .error (.Args "either specify --ignore to minify all files except")

/-- `FileResolutionOptions::is_included` from `src/lib.rs`: under `Only`,
some pattern must match; under `AllBut`, no pattern may match. -/
def FileResolutionOptions.is_included
    (self : FileResolutionOptions) (file_name : String) : Bool :=
  match self with
  | .Only files => files.any (fun file => glob_match file file_name)
  | .AllBut ignored => ignored.all (fun ignore => !glob_match ignore file_name)

/-- Modelled from the spec: the status reported by the absent `vcs` module
for a working-tree root — no version control, a clean tree, an unclean tree
(with the sets of dirty and staged paths), or a query failure with its
message.  These are exactly the variants `execute` matches on. -/
inductive Status where
  | Error : String → Status
  | NoVCS : Status
  | Clean : Status
  | Unclean : List String → List String → Status
deriving DecidableEq, Repr

/-- Modelled from the spec: the per-file `Change` record produced by the
absent `cauterize` module — the affected file plus its original and
rewritten text.  Only the file name and the new text matter to the driver
code embedded here. -/
structure Change where
  file : String
  original_text : String
  new_text : String
deriving DecidableEq, Repr

/-- Modelled from the spec: the Committer (`cauterize::commit_changes`)
writes each change's new text over its file; writes are independent per
file, so a failed write is recorded and reported while the remaining
writes still proceed, and already-written files are not rolled back.
The file-system outcome of each individual write is supplied as the
function `w`; the result collects the successfully written files and the
reported failures, in input order. -/
def commit_changes (w : String → Except String Unit)
    : List Change → List String × List (String × String)
  | [] => ([], [])
  | c :: rest =>
    let r := commit_changes w rest
    match w c.file with
    | .ok _ => (c.file :: r.1, r.2)
    | .error e => (r.1, (c.file, e) :: r.2)

/-- The environment `execute` runs against: the outcome of diagnostic
collection and cauterization (`unused::get_unused` piped through
`cauterize::process_diagnostics` and collected), the outcome of the
workspace-metadata query (`resolver::get_cargo_metadata(..).workspace_root`),
the answer the VCS guard would give (`vcs::status(&cargo_root)`), and the
per-file write outcome the file system would give the Committer. -/
structure ExecEnv where
  changesResult : Except Error (List Change)
  metadataResult : Except Error String
  vcsStatus : Status
  writeOutcome : String → Except String Unit

/-- The observable effects of one `execute` run: its returned `Result`, and
a record of each side effect of `src/lib.rs` lines 108-177 — whether usage
was printed, whether diagnostic collection was invoked, the changes passed
to the diff renderer (stdout preview), the stderr lines, whether the VCS
guard was queried, whether `commit_changes` was invoked and with which
written files / reported write failures, and whether the
"run with --apply" hint was printed. -/
structure ExecTrace where
  result : Except Error Unit := .ok ()
  usagePrinted : Bool := false
  unusedQueried : Bool := false
  previewed : List Change := []
  stderr : List String := []
  vcsQueried : Bool := false
  commitInvoked : Bool := false
  writtenFiles : List String := []
  writeFailures : List (String × String) := []
  applyHintPrinted : Bool := false

/-- The trace state of `execute` just after the preview stage (lines
117-133 of `src/lib.rs`): diagnostics were collected; unless `--quiet`,
either the "no unused code" notice went to stderr or each change went to
the diff renderer. -/
def previewTrace (opts : MinifyOptions) (changes : List Change) : ExecTrace :=
  { unusedQueried := true
    previewed := if opts.quiet then [] else changes
    stderr :=
      if !opts.quiet && changes.isEmpty then
        ["no unused code that can be minified"]
      else [] }

/-- `execute` from `src/lib.rs` (lines 108-177), as a function from the
parsed options and the collaborator environment to the trace of its
observable effects.  Control flow mirrors the source: resolve the crate
and file filters (each `?` propagates a configuration error), print usage
on `--help`, otherwise collect diagnostics (`?`), preview, fetch the
workspace root (`?`), then on `--apply` consult the VCS guard and either
refuse with a stderr report or invoke the committer; without `--apply`
print the hint when changes exist.  Every path past option validation
returns `Ok(())`. -/
def execute (opts : MinifyOptions) (env : ExecEnv) : ExecTrace :=
  match CrateResolutionOptions.from_options opts with
  | .error e => { result := .error e }
  | .ok _ =>
  match FileResolutionOptions.from_options opts with
  | .error e => { result := .error e }
  | .ok _ =>
  if opts.help then
    { usagePrinted := true }
  else
    match env.changesResult with
    | .error e => { unusedQueried := true, result := .error e }
    | .ok changes =>
      let base := previewTrace opts changes
      match env.metadataResult with
      | .error e => { base with result := .error e }
      | .ok _ =>
        if opts.apply then
          match env.vcsStatus with
          | .Error e =>
              { base with
                vcsQueried := true
                stderr := base.stderr ++ ["git problem: " ++ e] }
          | .NoVCS =>
            if !opts.allow_no_vcs then
              { base with
                vcsQueried := true
                stderr := base.stderr ++
                  ["no VCS found for this package and `cargo minify` can potentially perform destructive changes; if you'd like to suppress this error pass `--allow-no-vcs`"] }
            else
              let r := commit_changes env.writeOutcome changes
              { base with
                vcsQueried := true, commitInvoked := true
                writtenFiles := r.1, writeFailures := r.2 }
          | .Unclean dirty staged =>
            if !(dirty.isEmpty || opts.allow_dirty)
                || !(staged.isEmpty || opts.allow_staged) then
              { base with
                vcsQueried := true
                stderr := base.stderr ++
                  ["working directory contains dirty/staged files:"] ++
                  dirty.map (fun f => "\t" ++ f ++ " (dirty)") ++
                  staged.map (fun f => "\t" ++ f ++ " (staged)") ++
                  ["please fix this or ignore this warning with --allow-dirty and/or --allow-staged"] }
            else
              let r := commit_changes env.writeOutcome changes
              { base with
                vcsQueried := true, commitInvoked := true
                writtenFiles := r.1, writeFailures := r.2 }
          | .Clean =>
              let r := commit_changes env.writeOutcome changes
              { base with
                vcsQueried := true, commitInvoked := true
                writtenFiles := r.1, writeFailures := r.2 }
        else
          { base with applyHintPrinted := !changes.isEmpty }

/-- The exit-status mapping of `run` from `src/lib.rs` (lines 81-101):
I/O errors exit 3, encoding errors exit 2, argument and command-line
errors exit 1, everything else (the `Ok` result) exits 0. -/
def runStatusCode : Except Error Unit → Nat
  | .error (.Io _) => 3
  | .error (.Utf8 _) => 2
  | .error (.Args _) => 1
  | .error (.CommandLine _) => 1
  | .ok _ => 0

/-- A baseline parsed-options value for concrete runs: no flags set, no
package or file lists given (preview mode on the root package, all files). -/
def optsPreview : MinifyOptions :=
  { quiet := false, package := [], workspace := false, exclude := [],
    file := [], ignore := [], kinds := [], apply := false, help := false,
    color := .never, manifest_path := none, allow_dirty := false,
    allow_staged := false, allow_no_vcs := false }

/-- The baseline options with `--apply` set. -/
def optsApply : MinifyOptions := { optsPreview with apply := true }

/-- A baseline environment: no changes to make, the metadata query
succeeds, the repository is clean, and every file write succeeds. -/
def envClean : ExecEnv :=
  { changesResult := .ok [], metadataResult := .ok "", vcsStatus := .Clean,
    writeOutcome := fun _ => .ok () }

/-- Every string is matched by the `**` pattern. -/
theorem globMatchAux_double_star (s : List Char) : globMatchAux ['*', '*'] s = true := by
  induction s with
  | nil => simp [globMatchAux]
  | cons c cs ih => simp [globMatchAux, ih]

/-- The guard of the `Unclean` match arm of `execute` is false exactly when
every violated precondition has its override set. -/
theorem unclean_guard_false_iff (dirty staged : List String) (ad as : Bool) :
    ((!(dirty.isEmpty || ad) || !(staged.isEmpty || as)) = false) ↔
      ((dirty = [] ∨ ad = true) ∧ (staged = [] ∨ as = true)) := by
  simp [List.isEmpty_iff]
  tauto

/-- A change whose write fails has its failure recorded by the committer. -/
theorem commit_changes_reports_failure (w : String → Except String Unit)
    (changes : List Change) (d : Change) (e : String)
    (hd : d ∈ changes) (hw : w d.file = .error e) :
    (d.file, e) ∈ (commit_changes w changes).2 := by
  induction changes with
  | nil => cases hd
  | cons c rest ih =>
    rcases List.mem_cons.mp hd with rfl | hd2
    · simp [commit_changes, hw]
    · rcases hx : w c.file with e2 | u2 <;>
        simp [commit_changes, hx, ih hd2]

/-- A change whose write succeeds is recorded as written by the committer,
independently of the other changes in the batch. -/
theorem commit_changes_records_written (w : String → Except String Unit)
    (changes : List Change) (d : Change) (u : Unit)
    (hd : d ∈ changes) (hu : w d.file = .ok u) :
    d.file ∈ (commit_changes w changes).1 := by
  induction changes with
  | nil => cases hd
  | cons c rest ih =>
    rcases List.mem_cons.mp hd with rfl | hd2
    · simp [commit_changes, hu]
    · rcases hx : w c.file with e2 | u2 <;>
        simp [commit_changes, hx, ih hd2]

/-- Claim C1: when `--apply` is set and the VCS status is `Unclean`, the
commit step executes iff every currently-violated precondition has its
override set — `(dirty empty or allow_dirty) and (staged empty or
allow_staged)` — and on `NoVCS` iff `allow_no_vcs` is set; with a non-empty
dirty set and `allow_dirty` unset, no file is written and every dirty file
is reported on stderr, while with the overrides satisfied the commit step
runs on the collected changes. -/
theorem apply_vcs_precondition_gating (opts : MinifyOptions) (env : ExecEnv)
    (cr : CrateResolutionOptions) (fr : FileResolutionOptions)
    (changes : List Change) (root : String)
    (hcr : CrateResolutionOptions.from_options opts = .ok cr)
    (hfr : FileResolutionOptions.from_options opts = .ok fr)
    (hhelp : opts.help = false)
    (happly : opts.apply = true)
    (hch : env.changesResult = .ok changes)
    (hmd : env.metadataResult = .ok root) :
    (∀ dirty staged, env.vcsStatus = .Unclean dirty staged →
      ((execute opts env).commitInvoked = true ↔
        ((dirty = [] ∨ opts.allow_dirty = true) ∧
         (staged = [] ∨ opts.allow_staged = true)))) ∧
    (env.vcsStatus = .NoVCS →
      ((execute opts env).commitInvoked = true ↔ opts.allow_no_vcs = true)) ∧
    (∀ dirty staged, env.vcsStatus = .Unclean dirty staged →
      dirty ≠ [] → opts.allow_dirty = false →
      (execute opts env).commitInvoked = false ∧
      (execute opts env).writtenFiles = [] ∧
      ∀ f ∈ dirty, ("\t" ++ f ++ " (dirty)") ∈ (execute opts env).stderr) ∧
    (∀ dirty staged, env.vcsStatus = .Unclean dirty staged →
      (dirty = [] ∨ opts.allow_dirty = true) →
      (staged = [] ∨ opts.allow_staged = true) →
      (execute opts env).commitInvoked = true ∧
      (execute opts env).writtenFiles = (commit_changes env.writeOutcome changes).1) := by
  refine ⟨?_, ?_, ?_, ?_⟩
  · intro dirty staged hv
    cases hg : (!(dirty.isEmpty || opts.allow_dirty) || !(staged.isEmpty || opts.allow_staged))
    · simp only [execute, hcr, hfr, hhelp, happly, hch, hmd, hv, hg]
      simp [previewTrace]
      exact (unclean_guard_false_iff dirty staged _ _).mp hg
    · have hnp : ¬((dirty = [] ∨ opts.allow_dirty = true) ∧
          (staged = [] ∨ opts.allow_staged = true)) := fun hp => by
        have h2 := (unclean_guard_false_iff dirty staged
          opts.allow_dirty opts.allow_staged).mpr hp
        rw [hg] at h2
        exact Bool.noConfusion h2
      simp only [execute, hcr, hfr, hhelp, happly, hch, hmd, hv, hg]
      simp [previewTrace, hnp]
  · intro hv
    simp only [execute, hcr, hfr, hhelp, happly, hch, hmd, hv]
    cases hn : opts.allow_no_vcs <;> simp [hn, previewTrace]
  · intro dirty staged hv hne had
    have hg : (!(dirty.isEmpty || opts.allow_dirty)
        || !(staged.isEmpty || opts.allow_staged)) = true := by
      simp [had, List.isEmpty_eq_false.mpr hne]
    simp only [execute, hcr, hfr, hhelp, happly, hch, hmd, hv, hg]
    simp [previewTrace]
    intro f hf
    exact Or.inr (Or.inr (Or.inl ⟨f, hf, rfl⟩))
  · intro dirty staged hv h1 h2
    have hg : (!(dirty.isEmpty || opts.allow_dirty)
        || !(staged.isEmpty || opts.allow_staged)) = false :=
      (unclean_guard_false_iff dirty staged _ _).mpr ⟨h1, h2⟩
    simp only [execute, hcr, hfr, hhelp, happly, hch, hmd, hv, hg]
    simp [previewTrace]

/-- Witness for C1: with a dirty file `a.rs` and no override the commit
step does not run, nothing is written and the file is reported; with
`--allow-dirty` the commit step runs. -/
theorem apply_vcs_precondition_gating_witness :
    (execute optsApply { envClean with vcsStatus := .Unclean ["a.rs"] [] }).commitInvoked = false ∧
    (execute optsApply { envClean with vcsStatus := .Unclean ["a.rs"] [] }).writtenFiles = [] ∧
    ("\t" ++ "a.rs" ++ " (dirty)") ∈
      (execute optsApply { envClean with vcsStatus := .Unclean ["a.rs"] [] }).stderr ∧
    (execute { optsApply with allow_dirty := true }
      { envClean with vcsStatus := .Unclean ["a.rs"] [] }).commitInvoked = true := by
  have h1 := apply_vcs_precondition_gating optsApply
    { envClean with vcsStatus := .Unclean ["a.rs"] [] } .Root (.AllBut []) [] ""
    rfl rfl rfl rfl rfl rfl
  have h2 := apply_vcs_precondition_gating { optsApply with allow_dirty := true }
    { envClean with vcsStatus := .Unclean ["a.rs"] [] } .Root (.AllBut []) [] ""
    rfl rfl rfl rfl rfl rfl
  obtain ⟨hc1, hc2, hm⟩ := h1.2.2.1 ["a.rs"] [] rfl (by simp) rfl
  refine ⟨hc1, hc2, hm "a.rs" (by simp), ?_⟩
  exact (h2.2.2.2 ["a.rs"] [] rfl (Or.inr rfl) (Or.inl rfl)).1

/-- Claim C2: named packages together with workspace mode, or an exclude
list without workspace mode, is a configuration error produced before any
diagnostic collection; otherwise exactly one of root / named packages /
workspace-minus-exclusions is selected. -/
theorem crate_resolution_exclusive (opts : MinifyOptions) (env : ExecEnv) :
    (opts.workspace = true → opts.package ≠ [] →
      CrateResolutionOptions.from_options opts =
        .error (.Args "either specify --workspace and optionally --exclude specific targets, or specify specific targets with --package")) ∧
    (opts.workspace = false → opts.package ≠ [] → opts.exclude ≠ [] →
      CrateResolutionOptions.from_options opts =
        .error (.Args "either specify --workspace and optionally --exclude specific targets, or specify specific targets with --package")) ∧
    (opts.workspace = false → opts.package = [] → opts.exclude ≠ [] →
      CrateResolutionOptions.from_options opts =
        .error (.Args "--exclude can only be used in conjunction with --workspace")) ∧
    (∀ e, CrateResolutionOptions.from_options opts = .error e →
      (execute opts env).unusedQueried = false ∧
      (execute opts env).result = .error e) ∧
    (opts.workspace = true → opts.package = [] →
      CrateResolutionOptions.from_options opts = .ok (.Workspace opts.exclude)) ∧
    (opts.workspace = false → opts.package ≠ [] → opts.exclude = [] →
      CrateResolutionOptions.from_options opts = .ok (.Package opts.package)) ∧
    (opts.workspace = false → opts.package = [] → opts.exclude = [] →
      CrateResolutionOptions.from_options opts = .ok .Root) := by
  refine ⟨?_, ?_, ?_, ?_, ?_, ?_, ?_⟩
  · intro h1 h2
    rcases hx : opts.exclude with _ | ⟨a, as⟩ <;>
      simp [CrateResolutionOptions.from_options, h1, hx,
        List.isEmpty_eq_false.mpr h2]
  · intro h1 h2 h3
    simp [CrateResolutionOptions.from_options, h1,
      List.isEmpty_eq_false.mpr h2, List.isEmpty_eq_false.mpr h3]
  · intro h1 h2 h3
    simp [CrateResolutionOptions.from_options, h1, h2,
      List.isEmpty_eq_false.mpr h3]
  · intro e he; simp [execute, he]
  · intro h1 h2
    rcases hx : opts.exclude with _ | ⟨a, as⟩ <;>
      simp [CrateResolutionOptions.from_options, h1, h2, hx]
  · intro h1 h2 h3
    simp [CrateResolutionOptions.from_options, h1, h3,
      List.isEmpty_eq_false.mpr h2]
  · intro h1 h2 h3
    simp [CrateResolutionOptions.from_options, h1, h2, h3]

/-- Witness for C2: `--workspace` together with `--package a` is rejected
with the configuration error, and no diagnostic collection happens. -/
theorem crate_resolution_exclusive_witness :
    CrateResolutionOptions.from_options
      { optsPreview with workspace := true, package := ["a"] } =
      .error (.Args "either specify --workspace and optionally --exclude specific targets, or specify specific targets with --package") ∧
    (execute { optsPreview with workspace := true, package := ["a"] }
      envClean).unusedQueried = false := by
  have h := crate_resolution_exclusive
    { optsPreview with workspace := true, package := ["a"] } envClean
  have he := h.1 rfl (by simp)
  exact ⟨he, (h.2.2.2.1 _ he).1⟩

/-- Claim C3: giving both a file allow-list and an ignore deny-list is a
configuration error; giving exactly one of them produces the matching
`Only` / `AllBut` filter. -/
theorem file_resolution_exclusive (opts : MinifyOptions) :
    (opts.file ≠ [] → opts.ignore ≠ [] →
      FileResolutionOptions.from_options opts =
        .error (.Args "either specify --ignore to minify all files except")) ∧
    (opts.file ≠ [] → opts.ignore = [] →
      FileResolutionOptions.from_options opts = .ok (.Only opts.file)) ∧
    (opts.file = [] → opts.ignore ≠ [] →
      FileResolutionOptions.from_options opts = .ok (.AllBut opts.ignore)) := by
  refine ⟨?_, ?_, ?_⟩ <;> intro h1 h2
  · simp [FileResolutionOptions.from_options,
      List.isEmpty_eq_false.mpr h1, List.isEmpty_eq_false.mpr h2]
  · simp [FileResolutionOptions.from_options, List.isEmpty_eq_false.mpr h1, h2]
  · simp [FileResolutionOptions.from_options, h1, List.isEmpty_eq_false.mpr h2]

/-- Witness for C3: `--file a --ignore b` is rejected, `--file a` alone
gives the allow-list filter, `--ignore b` alone gives the deny-list
filter. -/
theorem file_resolution_exclusive_witness :
    FileResolutionOptions.from_options
      { optsPreview with file := ["a"], ignore := ["b"] } =
      .error (.Args "either specify --ignore to minify all files except") ∧
    FileResolutionOptions.from_options { optsPreview with file := ["a"] } =
      .ok (.Only ["a"]) ∧
    FileResolutionOptions.from_options { optsPreview with ignore := ["b"] } =
      .ok (.AllBut ["b"]) :=
  ⟨(file_resolution_exclusive _).1 (by simp) (by simp),
   (file_resolution_exclusive _).2.1 (by simp) rfl,
   (file_resolution_exclusive _).2.2 rfl (by simp)⟩

/-- Claim C4: under an allow-list `is_included` holds iff some glob pattern
matches; under a deny-list iff no glob pattern matches; concretely the
allow-list `["src/*.rs"]` excludes `tests/foo.rs` and the deny-list
`["generated/**"]` excludes every name under `generated/`. -/
theorem is_included_glob_characterization :
    (∀ files name, (FileResolutionOptions.Only files).is_included name = true ↔
        ∃ p ∈ files, glob_match p name = true) ∧
    (∀ ignored name, (FileResolutionOptions.AllBut ignored).is_included name = true ↔
        ∀ p ∈ ignored, glob_match p name = false) ∧
    (FileResolutionOptions.Only ["src/*.rs"]).is_included "tests/foo.rs" = false ∧
    (∀ s : String, (FileResolutionOptions.AllBut ["generated/**"]).is_included
        ("generated/" ++ s) = false) := by
  refine ⟨?_, ?_, ?_, ?_⟩
  · intro files name
    simp [FileResolutionOptions.is_included, List.any_eq_true]
  · intro ignored name
    simp [FileResolutionOptions.is_included, List.all_eq_true]
  · simp [FileResolutionOptions.is_included, glob_match, globMatchAux]
  · intro s
    have h : ("generated/" ++ s).data = "generated/".data ++ s.data :=
      String.data_append ..
    simp [FileResolutionOptions.is_included, glob_match, h]
    show globMatchAux "generated/**".data ("generated/".data ++ s.data) = true
    simp [globMatchAux, globMatchAux_double_star]

/-- Witness for C4: the two concrete filter evaluations of the claim. -/
theorem is_included_glob_characterization_witness :
    (FileResolutionOptions.Only ["src/*.rs"]).is_included "tests/foo.rs" = false ∧
    (FileResolutionOptions.AllBut ["generated/**"]).is_included
      ("generated/" ++ "a/b.rs") = false :=
  ⟨is_included_glob_characterization.2.2.1,
   is_included_glob_characterization.2.2.2 "a/b.rs"⟩

/-- Claim C5: argument/configuration errors exit with status 1, I/O errors
with 3, encoding errors with 2 — three distinct categories — and a run
that found no changes to make returns `Ok`, hence exit status 0. -/
theorem exit_status_categories (msg : String) (opts : MinifyOptions) (env : ExecEnv)
    (cr : CrateResolutionOptions) (fr : FileResolutionOptions) (root : String)
    (hcr : CrateResolutionOptions.from_options opts = .ok cr)
    (hfr : FileResolutionOptions.from_options opts = .ok fr)
    (hhelp : opts.help = false)
    (hch : env.changesResult = .ok [])
    (hmd : env.metadataResult = .ok root) :
    runStatusCode (.error (.Args msg)) = 1 ∧
    runStatusCode (.error (.CommandLine msg)) = 1 ∧
    runStatusCode (.error (.Io msg)) = 3 ∧
    runStatusCode (.error (.Utf8 msg)) = 2 ∧
    runStatusCode (.ok ()) = 0 ∧
    (execute opts env).result = .ok () ∧
    runStatusCode (execute opts env).result = 0 := by
  refine ⟨rfl, rfl, rfl, rfl, rfl, ?_⟩
  have hres : (execute opts env).result = .ok () := by
    cases hap : opts.apply
    · simp [execute, hcr, hfr, hhelp, hap, hch, hmd, previewTrace]
    · cases hst : env.vcsStatus <;>
        simp [execute, hcr, hfr, hhelp, hap, hch, hmd, hst, previewTrace] <;>
        split <;> simp [previewTrace]
  exact ⟨hres, by rw [hres]; rfl⟩

/-- Witness for C5: the concrete status codes, and a no-changes run that
returns `Ok` with exit status 0. -/
theorem exit_status_categories_witness :
    runStatusCode (.error (.Args "bad")) = 1 ∧
    runStatusCode (.error (.CommandLine "bad")) = 1 ∧
    runStatusCode (.error (.Io "bad")) = 3 ∧
    runStatusCode (.error (.Utf8 "bad")) = 2 ∧
    runStatusCode (.ok ()) = 0 ∧
    (execute optsPreview envClean).result = .ok () ∧
    runStatusCode (execute optsPreview envClean).result = 0 :=
  exit_status_categories "bad" optsPreview envClean .Root (.AllBut []) ""
    rfl rfl rfl rfl rfl

/-- Claim C6: with the apply flag false the VCS guard is never queried; the
query happens only on the destructive-application path — whenever the
commit step runs, the guard was queried. -/
theorem vcs_query_only_on_apply (opts : MinifyOptions) (env : ExecEnv) :
    (opts.apply = false →
      (execute opts env).vcsQueried = false ∧
      (execute opts env).commitInvoked = false ∧
      (execute opts env).writtenFiles = []) ∧
    ((execute opts env).commitInvoked = true →
      (execute opts env).vcsQueried = true) := by
  rcases hcr : CrateResolutionOptions.from_options opts with e | cr
  · simp [execute, hcr]
  rcases hfr : FileResolutionOptions.from_options opts with e | fr
  · simp [execute, hcr, hfr]
  cases hh : opts.help
  case true => simp [execute, hcr, hfr, hh]
  rcases hch : env.changesResult with e | changes
  · simp [execute, hcr, hfr, hh, hch]
  rcases hmd : env.metadataResult with e | root
  · simp [execute, hcr, hfr, hh, hch, hmd, previewTrace]
  cases hap : opts.apply
  · simp [execute, hcr, hfr, hh, hap, hch, hmd, previewTrace]
  · cases hst : env.vcsStatus <;>
      simp [execute, hcr, hfr, hh, hap, hch, hmd, hst, previewTrace] <;>
      split <;> simp [previewTrace]

/-- Witness for C6: a preview run on the baseline configuration never
queries the VCS guard. -/
theorem vcs_query_only_on_apply_witness :
    (execute optsPreview envClean).vcsQueried = false :=
  ((vcs_query_only_on_apply optsPreview envClean).1 rfl).1

/-- Claim C7: if the VCS status query fails, applying is refused — the
commit step is not reached, nothing is written, the error message is
reported on stderr, the run result is still `Ok`, and the preview output
is the same as in the corresponding non-apply run. -/
theorem vcs_error_refuses_apply (opts : MinifyOptions) (env : ExecEnv)
    (cr : CrateResolutionOptions) (fr : FileResolutionOptions)
    (changes : List Change) (root msg : String)
    (hcr : CrateResolutionOptions.from_options opts = .ok cr)
    (hfr : FileResolutionOptions.from_options opts = .ok fr)
    (hhelp : opts.help = false)
    (happly : opts.apply = true)
    (hch : env.changesResult = .ok changes)
    (hmd : env.metadataResult = .ok root)
    (hv : env.vcsStatus = .Error msg)
    (opts2 : MinifyOptions) (hopts2 : opts2 = { opts with apply := false }) :
    (execute opts env).commitInvoked = false ∧
    (execute opts env).writtenFiles = [] ∧
    ("git problem: " ++ msg) ∈ (execute opts env).stderr ∧
    (execute opts env).result = .ok () ∧
    (execute opts env).previewed = (execute opts2 env).previewed := by
  have hcr2 : CrateResolutionOptions.from_options opts2 = .ok cr := by
    rw [hopts2]; exact hcr
  have hfr2 : FileResolutionOptions.from_options opts2 = .ok fr := by
    rw [hopts2]; exact hfr
  have hhelp2 : opts2.help = false := by rw [hopts2]; exact hhelp
  have hap2 : opts2.apply = false := by rw [hopts2]
  have hq2 : opts2.quiet = opts.quiet := by rw [hopts2]
  refine ⟨?_, ?_, ?_, ?_, ?_⟩ <;>
    simp [execute, hcr, hfr, hcr2, hfr2, hhelp, hhelp2, hap2, hq2, happly,
      hch, hmd, hv, previewTrace]

/-- Witness for C7: a VCS query failure `broken` on an apply run — no
commit, no writes, the message reported, and the preview unchanged from
the preview-only run. -/
theorem vcs_error_refuses_apply_witness :
    (execute optsApply { envClean with vcsStatus := .Error "broken" }).commitInvoked = false ∧
    (execute optsApply { envClean with vcsStatus := .Error "broken" }).writtenFiles = [] ∧
    ("git problem: " ++ "broken") ∈
      (execute optsApply { envClean with vcsStatus := .Error "broken" }).stderr ∧
    (execute optsApply { envClean with vcsStatus := .Error "broken" }).previewed =
      (execute optsPreview { envClean with vcsStatus := .Error "broken" }).previewed := by
  have h := vcs_error_refuses_apply optsApply
    { envClean with vcsStatus := .Error "broken" } .Root (.AllBut []) [] "" "broken"
    rfl rfl rfl rfl rfl rfl rfl optsPreview rfl
  exact ⟨h.1, h.2.1, h.2.2.1, h.2.2.2.2⟩

/-- Claim C8: commit-time file writes are independent per file — a failing
write is recorded in the reported failures, and every other change whose
own write succeeds (in particular all earlier ones) is still written; the
batch is never aborted or rolled back. -/
theorem commit_writes_independent (w : String → Except String Unit)
    (pre post : List Change) (c : Change) (e : String)
    (hw : w c.file = .error e) :
    (c.file, e) ∈ (commit_changes w (pre ++ c :: post)).2 ∧
    (∀ d ∈ pre, ∀ u, w d.file = Except.ok u →
      d.file ∈ (commit_changes w (pre ++ c :: post)).1) ∧
    (∀ d ∈ post, ∀ u, w d.file = Except.ok u →
      d.file ∈ (commit_changes w (pre ++ c :: post)).1) := by
  refine ⟨commit_changes_reports_failure w _ c e (by simp) hw, ?_, ?_⟩
  · intro d hd u hu
    exact commit_changes_records_written w _ d u (by simp [hd]) hu
  · intro d hd u hu
    exact commit_changes_records_written w _ d u (by simp [hd]) hu

/-- Witness for C8: in a two-change batch where the second write fails, the
failure is reported and the first file is still written. -/
theorem commit_writes_independent_witness :
    ("b.rs", "denied") ∈
      (commit_changes (fun s => if s = "b.rs" then .error "denied" else .ok ())
        [{ file := "a.rs", original_text := "x", new_text := "" },
         { file := "b.rs", original_text := "y", new_text := "" }]).2 ∧
    "a.rs" ∈
      (commit_changes (fun s => if s = "b.rs" then .error "denied" else .ok ())
        [{ file := "a.rs", original_text := "x", new_text := "" },
         { file := "b.rs", original_text := "y", new_text := "" }]).1 := by
  have h := commit_writes_independent
    (fun s => if s = "b.rs" then .error "denied" else .ok ())
    [{ file := "a.rs", original_text := "x", new_text := "" }] []
    { file := "b.rs", original_text := "y", new_text := "" } "denied" (by simp)
  exact ⟨h.1, h.2.1 { file := "a.rs", original_text := "x", new_text := "" }
    (by simp) () (by simp)⟩

/-- Claim C9: with neither a file list nor an ignore list the constructed
filter is the deny-list filter over the empty list, which includes every
file name. -/
theorem default_filter_includes_all (opts : MinifyOptions)
    (hf : opts.file = []) (hi : opts.ignore = []) :
    FileResolutionOptions.from_options opts = .ok (.AllBut []) ∧
    ∀ name, (FileResolutionOptions.AllBut []).is_included name = true := by
  constructor
  · simp [FileResolutionOptions.from_options, hf, hi]
  · intro name
    simp [FileResolutionOptions.is_included]

/-- Witness for C9: the baseline options build `AllBut []`, which includes
`src/main.rs`. -/
theorem default_filter_includes_all_witness :
    FileResolutionOptions.from_options optsPreview = .ok (.AllBut []) ∧
    (FileResolutionOptions.AllBut []).is_included "src/main.rs" = true :=
  ⟨(default_filter_includes_all optsPreview rfl rfl).1,
   (default_filter_includes_all optsPreview rfl rfl).2 "src/main.rs"⟩

/-- Claim C10: a refusal to apply caused by a violated VCS precondition —
query error, missing repository without `allow_no_vcs`, or dirty/staged
files without their overrides — still yields an `Ok` result and exit
status 0, with the commit step skipped. -/
theorem precondition_refusal_returns_ok (opts : MinifyOptions) (env : ExecEnv)
    (cr : CrateResolutionOptions) (fr : FileResolutionOptions)
    (changes : List Change) (root : String)
    (hcr : CrateResolutionOptions.from_options opts = .ok cr)
    (hfr : FileResolutionOptions.from_options opts = .ok fr)
    (hhelp : opts.help = false)
    (happly : opts.apply = true)
    (hch : env.changesResult = .ok changes)
    (hmd : env.metadataResult = .ok root)
    (hviol : (∃ m, env.vcsStatus = .Error m) ∨
      (env.vcsStatus = .NoVCS ∧ opts.allow_no_vcs = false) ∨
      (∃ dirty staged, env.vcsStatus = .Unclean dirty staged ∧
        ((dirty ≠ [] ∧ opts.allow_dirty = false) ∨
         (staged ≠ [] ∧ opts.allow_staged = false)))) :
    (execute opts env).result = .ok () ∧
    runStatusCode (execute opts env).result = 0 ∧
    (execute opts env).commitInvoked = false := by
  have hres : (execute opts env).commitInvoked = false ∧
      (execute opts env).result = .ok () := by
    rcases hviol with ⟨m, hv⟩ | ⟨hv, hn⟩ | ⟨dirty, staged, hv, hguard⟩
    · simp [execute, hcr, hfr, hhelp, happly, hch, hmd, hv, previewTrace]
    · simp [execute, hcr, hfr, hhelp, happly, hch, hmd, hv, hn, previewTrace]
    · have hg : (!(dirty.isEmpty || opts.allow_dirty)
          || !(staged.isEmpty || opts.allow_staged)) = true := by
        rcases hguard with ⟨hne, hfl⟩ | ⟨hne, hfl⟩ <;>
          simp [hfl, List.isEmpty_eq_false.mpr hne]
      simp only [execute, hcr, hfr, hhelp, happly, hch, hmd, hv, hg]
      simp [previewTrace]
  exact ⟨hres.2, by rw [hres.2]; rfl, hres.1⟩

/-- Witness for C10: applying with no repository and `allow_no_vcs` unset
is refused but still exits 0 with an `Ok` result. -/
theorem precondition_refusal_returns_ok_witness :
    (execute optsApply { envClean with vcsStatus := .NoVCS }).result = .ok () ∧
    runStatusCode (execute optsApply { envClean with vcsStatus := .NoVCS }).result = 0 ∧
    (execute optsApply { envClean with vcsStatus := .NoVCS }).commitInvoked = false :=
  precondition_refusal_returns_ok optsApply { envClean with vcsStatus := .NoVCS }
    .Root (.AllBut []) [] "" rfl rfl rfl rfl rfl rfl
    (Or.inr (Or.inl ⟨rfl, rfl⟩))

end CargoMinify
